import Mathlib

/-!
Shallow embedding of `examples/fcsp_state_monitor.py` (fcsp-api repository).

The script is a polling monitor: it fetches the device state via the FCSP
REST client, compares it with the last seen state, prints a formatted change
notice if something changed, sleeps, and repeats.  External effects
(the network fetch, wall-clock timestamps, POSIX signals, unexpected
exceptions raised inside the loop body) are modelled as inputs supplied by
the environment: each loop iteration consumes one `CycleEvent`, and a run of
the loop consumes a finite list of events (an observation prefix of the
infinite loop).  Console output is collected as a list of printed strings.
-/

/-- Python `str(x)` / f-string interpolation of a value that is either a
`str` or `None` (as with `charger_info.get('state')`). -/
def pyShowStrOpt : Option String → String
  | some s => s
  | none => "None"

/-- Python `repr` of a `str`-or-`None` list element, as produced when a list
is interpolated into an f-string (strings are shown in single quotes). -/
def pyReprStrOpt : Option String → String
  | some s => "\x27" ++ (s ++ "\x27")
  | none => "None"

/-- Python f-string interpolation of a list of `str`-or-`None` values,
e.g. `['AA', None]`. -/
def pyReprList (l : List (Option String)) : String :=
  "[" ++ (String.intercalate ", " (l.map pyReprStrOpt) ++ "]")

/-- Python f-string interpolation of a value that is either a list of
state codes or `None` (the type of `previous_inverter_states`). -/
def pyShowInvOpt : Option (List (Option String)) → String
  | some l => pyReprList l
  | none => "None"

/-- One entry of the `DEVICE_STATES` dict: `name`, `description`, `icon`.
The fallback dict built inline at lines 100-101/135 of the source has no
`description` key, hence the `Option`. -/
structure StateInfo where
  name : String
  description : Option String
  icon : String
  deriving DecidableEq

/-- The `DEVICE_STATES` table (lines 16-37 of the source), as an
association list from state code to descriptor. -/
def DEVICE_STATES : List (String × StateInfo) :=
  [("CS00", { name := "Available",
              description := some "No vehicle connected - Ready for charging",
              icon := "🟢" }),
   ("CS01", { name := "Connected (Not Charging)",
              description := some "Vehicle connected but charging paused/stopped",
              icon := "🟡" }),
   ("CS02", { name := "Charging",
              description := some "Vehicle connected and actively charging",
              icon := "🔋" }),
   ("CS03", { name := "Error/Fault",
              description := some "Possible error or fault condition",
              icon := "🔴" })]

/-- `DEVICE_STATES.get(key, {'name': f'Unknown ({key})', 'icon': '❓'})`:
dict lookup with a synthesized fallback descriptor (lines 100-101 and 135
of the source).  The key may be `None` (a dict lookup with a `None` key
simply misses). -/
def deviceStateLookup (key : Option String) : StateInfo :=
  (key.bind (fun k => DEVICE_STATES.lookup k)).getD
    { name := "Unknown (" ++ (pyShowStrOpt key ++ ")"),
      description := none,
      icon := "❓" }

/-- The charger info record returned by `fcsp.get_charger_info()`; only the
`state` field is read by the monitor (`charger_info.get('state')`, which is
`None` when the key is missing). -/
structure ChargerInfo where
  state : Option String
  deriving DecidableEq

/-- One inverter record from `fcsp.get_inverter_info()`; only the `state`
field is read (`inv.get('state')`). -/
structure InverterInfo where
  state : Option String
  deriving DecidableEq

/-- Outcome of one attempt to talk to the device, supplied by the
environment.  The three failure constructors correspond to an exception
raised while acquiring the scoped connection (`with FCSP() as fcsp`),
during `get_charger_info()`, or during `get_inverter_info()`; the string is
the exception's text.  `ok` is a fetch that raised nowhere. -/
inductive FetchOutcome where
  | connectFail (msg : String)
  | chargerFail (msg : String)
  | inverterFail (charger : ChargerInfo) (msg : String)
  | ok (charger : ChargerInfo) (inverters : List InverterInfo)
  deriving DecidableEq

/-- The exception text when the fetch raised, `none` when it completed. -/
def FetchOutcome.errorText : FetchOutcome → Option String
  | .connectFail e => some e
  | .chargerFail e => some e
  | .inverterFail _ e => some e
  | .ok _ _ => none

/-- The error line printed by `get_current_state`'s `except` branch
(line 81 of the source). -/
def fetchErrorMsg (e : String) : String :=
  "❌ Error getting state: " ++ e

/-- `FCSPStateMonitor.get_current_state` (lines 63-82): returns the pair
`(device_state, inverter_states)` — `(None, None)` on any exception —
together with the list of lines it printed. -/
def get_current_state :
    FetchOutcome → (Option String × Option (List (Option String))) × List String
  | .connectFail e => ((none, none), [fetchErrorMsg e])
  | .chargerFail e => ((none, none), [fetchErrorMsg e])
  | .inverterFail _ e => ((none, none), [fetchErrorMsg e])
  | .ok charger inverters =>
      ((charger.state, some (inverters.map InverterInfo.state)), [])

/-- The header line of a change report: `f"\n🔔 [{timestamp}] STATE CHANGE
DETECTED!"`. -/
def stateChangeHeader (timestamp : String) : String :=
  "\n🔔 [" ++ (timestamp ++ "] STATE CHANGE DETECTED!")

/-- The device-transition line of a change report (line 105 of the
source). -/
def deviceLine (old_state new_state : Option String) : String :=
  "   Device: " ++
    ((deviceStateLookup old_state).icon ++ (" " ++ (pyShowStrOpt old_state ++
      (" (" ++ ((deviceStateLookup old_state).name ++ (") → " ++
        ((deviceStateLookup new_state).icon ++ (" " ++ (pyShowStrOpt new_state ++
          (" (" ++ ((deviceStateLookup new_state).name ++ ")")))))))))))

/-- The inverter-transition line of a change report (line 110 of the
source). -/
def inverterLine (old_inverters new_inverters : Option (List (Option String))) :
    String :=
  "   Inverters: " ++
    (pyShowInvOpt old_inverters ++ (" → " ++ pyShowInvOpt new_inverters))

/-- The `lines` list built by `format_state_change` (lines 103-110): header
and device line always, inverter line only if the inverter lists differ. -/
def format_lines (timestamp : String) (old_state new_state : Option String)
    (old_inverters new_inverters : Option (List (Option String))) : List String :=
  let base := [stateChangeHeader timestamp, deviceLine old_state new_state]
  if old_inverters ≠ new_inverters then
    base ++ [inverterLine old_inverters new_inverters]
  else base

/-- `FCSPStateMonitor.format_state_change` (lines 84-112): the full report,
the built lines joined with newlines.  The timestamp (`datetime.now()`
formatted) is an input from the environment. -/
def format_state_change (timestamp : String) (old_state new_state : Option String)
    (old_inverters new_inverters : Option (List (Option String))) : String :=
  String.intercalate "\n"
    (format_lines timestamp old_state new_state old_inverters new_inverters)

/-- The mutable attributes of the `FCSPStateMonitor` object. -/
structure FCSPStateMonitor where
  poll_interval : Int
  previous_state : Option String
  previous_inverter_states : Option (List (Option String))
  running : Bool
  deriving DecidableEq

/-- `FCSPStateMonitor.__init__` (lines 42-56): stores the interval (no
validation of any kind) and initializes the `previous_*` fields to `None`
and `running` to `False`.  Signal-handler registration has no modelled
effect; it never raises in the single-threaded script. -/
def FCSPStateMonitor.init (poll_interval : Int) : FCSPStateMonitor :=
  { poll_interval := poll_interval,
    previous_state := none,
    previous_inverter_states := none,
    running := false }

/-- The line printed by `_signal_handler` (line 60). -/
def signalHandlerMsg (signum : Int) : String :=
  "\n👋 Received signal " ++ (toString signum ++ ", shutting down gracefully...")

/-- The line printed by the outer `except Exception` of the loop
(line 172). -/
def unexpectedErrorMsg (e : String) : String :=
  "❌ Unexpected error in monitoring loop: " ++ e

/-- The literal `5` in `time.sleep(5)` (line 173): the fixed delay before
retrying after an unexpected loop error, in seconds. -/
def errorRetryDelay : Int := 5

/-- The argparse default for `--interval` (line 180), in seconds. -/
def defaultPollInterval : Int := 30

/-- What the environment makes happen during one iteration of the `while
self.running` loop (lines 140-173):

* `signal signum`: a shutdown signal is delivered during `time.sleep`, so
  the handler prints its line and sets `running = False`, and the
  `if not self.running: break` check (line 145) exits the loop before any
  fetch;
* `fetch timestamp outcome`: the iteration reaches `get_current_state` with
  the given outcome; `timestamp` is what `datetime.now()` formats to if a
  change report is printed;
* `keyboardInterrupt`: a `KeyboardInterrupt` escapes the body and the
  `except KeyboardInterrupt` branch (line 169) breaks out of the loop;
* `unexpected e`: an exception other than `KeyboardInterrupt` escapes the
  body (for example from `time.sleep` itself) and is caught by the outer
  `except Exception` branch (lines 171-173). -/
inductive CycleEvent where
  | signal (signum : Int)
  | fetch (timestamp : String) (outcome : FetchOutcome)
  | keyboardInterrupt
  | unexpected (e : String)
  deriving DecidableEq

/-- `1` if the iteration called `get_current_state`, else `0`. -/
def CycleEvent.pollCount : CycleEvent → Nat
  | .fetch _ _ => 1
  | _ => 0

/-- Result of one iteration of the monitoring loop: the monitor object
afterwards, the lines printed, whether the loop keeps going
(`false` = a `break` was taken), and the extra recovery sleep performed
(`errorRetryDelay` after an unexpected error, `0` otherwise; the regular
`time.sleep(poll_interval)` at the top of every iteration is not
counted here). -/
structure StepOutcome where
  state : FCSPStateMonitor
  output : List String
  continues : Bool
  recoverySleep : Int
  deriving DecidableEq

/-- One iteration of the `while self.running` body (lines 141-173). -/
def FCSPStateMonitor.monitor_step (s : FCSPStateMonitor) :
    CycleEvent → StepOutcome
  | .signal signum =>
      { state := { s with running := false },
        output := [signalHandlerMsg signum],
        continues := false,
        recoverySleep := 0 }
  | .keyboardInterrupt =>
      { state := s, output := [], continues := false, recoverySleep := 0 }
  | .unexpected e =>
      { state := s,
        output := [unexpectedErrorMsg e],
        continues := true,
        recoverySleep := errorRetryDelay }
  | .fetch timestamp outcome =>
      let r := get_current_state outcome
      match r.1.1 with
      | none =>
          -- `if current_state is None: continue` (lines 151-152)
          { state := s, output := r.2, continues := true, recoverySleep := 0 }
      | some c =>
          if some c ≠ s.previous_state ∨ r.1.2 ≠ s.previous_inverter_states then
            { state := { s with previous_state := some c,
                                previous_inverter_states := r.1.2 },
              output := r.2 ++
                [format_state_change timestamp s.previous_state (some c)
                  s.previous_inverter_states r.1.2],
              continues := true,
              recoverySleep := 0 }
          else
            { state := s, output := r.2, continues := true, recoverySleep := 0 }

/-- Result of running the loop over a finite prefix of events: final
monitor object, printed lines, and the number of poll cycles performed
(calls of `get_current_state` from inside the loop). -/
structure LoopResult where
  state : FCSPStateMonitor
  output : List String
  polls : Nat
  deriving DecidableEq

/-- The `while self.running` loop (lines 140-173), consuming one event per
iteration.  An exhausted event list ends the observation (in the script
the loop would simply keep running). -/
def FCSPStateMonitor.monitor_loop (s : FCSPStateMonitor) :
    List CycleEvent → LoopResult
  | [] => { state := s, output := [], polls := 0 }
  | ev :: rest =>
      if s.running then
        let r := s.monitor_step ev
        if r.continues then
          let rec' := FCSPStateMonitor.monitor_loop r.state rest
          { state := rec'.state,
            output := r.output ++ rec'.output,
            polls := ev.pollCount + rec'.polls }
        else
          { state := r.state, output := r.output, polls := ev.pollCount }
      else
        { state := s, output := [], polls := 0 }

/-- The banner printed at the top of `monitor` (lines 116-119 and 124). -/
def startupBanner (interval : Int) : List String :=
  ["🔌 FCSP State Monitor",
   "📡 Polling every " ++ (toString interval ++ " seconds"),
   "🎯 Press Ctrl+C to stop",
   String.mk (List.replicate 50 '='),
   "🔍 Getting initial state..."]

/-- The fatal line printed when the initial fetch fails (line 128). -/
def initialFetchFailMsg : String := "❌ Failed to get initial state. Exiting."

/-- Result of one call of `FCSPStateMonitor.monitor`. -/
structure MonitorResult where
  state : FCSPStateMonitor
  output : List String
  polls : Nat
  deriving DecidableEq

/-- `FCSPStateMonitor.monitor` (lines 114-175): print the banner, set
`running = True`, fetch the initial state (`initial` is that fetch's
outcome); on a `None` device state print the fatal message and return
without entering the loop; otherwise store the initial values, print the
initial-state report, run the loop over `events`, and print the final
shutdown line. -/
def FCSPStateMonitor.monitor (s : FCSPStateMonitor) (initial : FetchOutcome)
    (events : List CycleEvent) : MonitorResult :=
  let s1 := { s with running := true }
  let r0 := get_current_state initial
  match r0.1.1 with
  | none =>
      { state := s1,
        output := startupBanner s.poll_interval ++ (r0.2 ++ [initialFetchFailMsg]),
        polls := 0 }
  | some st =>
      let s2 := { s1 with previous_state := some st,
                          previous_inverter_states := r0.1.2 }
      let info := deviceStateLookup (some st)
      let initialReport :=
        "📊 Initial state: " ++
          (info.icon ++ (" " ++ (st ++ (" - " ++ info.name))))
      let lr := FCSPStateMonitor.monitor_loop s2 events
      { state := lr.state,
        output := startupBanner s.poll_interval ++
          (r0.2 ++ ([initialReport, "🔄 Starting monitoring loop...\n"] ++
            (lr.output ++ ["\n👋 Monitoring stopped"]))),
        polls := lr.polls }

/-- Result of a whole process run: exit status, loop poll cycles, printed
lines. -/
structure MainResult where
  exitCode : Nat
  polls : Nat
  output : List String
  deriving DecidableEq

/-- `main` (lines 177-192): build the monitor with the parsed interval and
run it.  `FCSPStateMonitor.init` validates nothing and `monitor` catches
every exception of its loop body and returns normally on a failed initial
fetch, so the `except Exception: sys.exit(1)` branch is unreachable and the
process always ends with exit status `0`. -/
def main_run (interval : Int) (initial : FetchOutcome)
    (events : List CycleEvent) : MainResult :=
  let m := FCSPStateMonitor.init interval
  let r := m.monitor initial events
  { exitCode := 0, polls := r.polls, output := r.output }

/-! ### Helper lemmas -/

/-- Two string concatenations differ when their left parts disagree within
the first `n` characters. -/
theorem append_ne_append_of_take_ne (p q x y : String) (n : Nat)
    (hp : n ≤ p.data.length) (hq : n ≤ q.data.length)
    (hne : p.data.take n ≠ q.data.take n) : p ++ x ≠ q ++ y := by
  intro he
  apply hne
  have hd := congrArg String.data he
  rw [String.data_append, String.data_append] at hd
  have ht := congrArg (List.take n) hd
  rwa [List.take_append_of_le_length hp, List.take_append_of_le_length hq] at ht

/-- The inverter-transition line is never the header line. -/
theorem inverterLine_ne_header (oi ni : Option (List (Option String)))
    (ts : String) : inverterLine oi ni ≠ stateChangeHeader ts := by
  unfold inverterLine stateChangeHeader
  exact append_ne_append_of_take_ne _ _ _ _ 1 (by decide) (by decide) (by decide)

/-- The inverter-transition line is never the device-transition line. -/
theorem inverterLine_ne_deviceLine (oi ni : Option (List (Option String)))
    (os ns : Option String) : inverterLine oi ni ≠ deviceLine os ns := by
  unfold inverterLine deviceLine
  exact append_ne_append_of_take_ne _ _ _ _ 4 (by decide) (by decide) (by decide)

/-- No single loop iteration can turn a present `previous_state` back into
an absent one. -/
theorem monitor_step_preserves_prev (s : FCSPStateMonitor) (ev : CycleEvent)
    (h : s.previous_state.isSome = true) :
    ((s.monitor_step ev).state).previous_state.isSome = true := by
  cases ev with
  | signal n => simpa [FCSPStateMonitor.monitor_step] using h
  | keyboardInterrupt => simpa [FCSPStateMonitor.monitor_step] using h
  | unexpected e => simpa [FCSPStateMonitor.monitor_step] using h
  | fetch ts out =>
    cases out with
    | connectFail e =>
        simpa [FCSPStateMonitor.monitor_step, get_current_state] using h
    | chargerFail e =>
        simpa [FCSPStateMonitor.monitor_step, get_current_state] using h
    | inverterFail c e =>
        simpa [FCSPStateMonitor.monitor_step, get_current_state] using h
    | ok ci invs =>
        cases hci : ci.state with
        | none =>
            simpa [FCSPStateMonitor.monitor_step, get_current_state, hci] using h
        | some c =>
            simp only [FCSPStateMonitor.monitor_step, get_current_state, hci]
            split
            · rfl
            · exact h

/-- Loop version of `monitor_step_preserves_prev`. -/
theorem monitor_loop_preserves_prev (events : List CycleEvent)
    (s : FCSPStateMonitor) (h : s.previous_state.isSome = true) :
    ((FCSPStateMonitor.monitor_loop s events).state).previous_state.isSome = true := by
  induction events generalizing s with
  | nil => simpa [FCSPStateMonitor.monitor_loop] using h
  | cons ev rest ih =>
    by_cases hr : s.running
    · simp only [FCSPStateMonitor.monitor_loop, hr, if_true]
      by_cases hc : (s.monitor_step ev).continues
      · simp only [hc, if_true]
        exact ih _ (monitor_step_preserves_prev s ev h)
      · simp only [hc, if_false]
        exact monitor_step_preserves_prev s ev h
    · simpa [FCSPStateMonitor.monitor_loop, hr] using h

/-! ### Claim theorems -/

/-- C1 (amended): when the initial fetch yields an absent device state, the
monitor performs zero poll cycles, but the process terminates with exit
status 0 — `monitor` returns normally after printing the failure line, so
`main`'s `sys.exit(1)` branch is not reached. -/
theorem initial_fetch_failure_zero_polls_exit_zero (interval : Int)
    (initial : FetchOutcome) (events : List CycleEvent)
    (h : (get_current_state initial).1.1 = none) :
    (main_run interval initial events).polls = 0 ∧
    (main_run interval initial events).exitCode = 0 := by
  simp [main_run, FCSPStateMonitor.monitor, h]

/-- C1 witness: a concrete failing initial fetch. -/
theorem initial_fetch_failure_zero_polls_exit_zero_witness :
    (main_run 30 (.connectFail "init-fail") []).polls = 0 ∧
    (main_run 30 (.connectFail "init-fail") []).exitCode = 0 :=
  initial_fetch_failure_zero_polls_exit_zero 30 (.connectFail "init-fail") [] rfl

/-- C1 counterexample: with the default interval and a failing initial
fetch, the fetch indeed fails and zero poll cycles happen, but the exit
status is 0, not non-zero as the claim states. -/
theorem initial_fetch_failure_exit_code_is_zero :
    (get_current_state (.connectFail "network down")).1.1 = none ∧
    (main_run 30 (.connectFail "network down") []).polls = 0 ∧
    (main_run 30 (.connectFail "network down") []).exitCode = 0 :=
  ⟨rfl, rfl, rfl⟩

/-- C2: a successful poll whose device state and inverter list both equal
the previously stored values emits no output at all (in particular no
change report) and leaves the monitor object unchanged. -/
theorem unchanged_poll_no_report_no_update (s : FCSPStateMonitor)
    (ci : ChargerInfo) (invs : List InverterInfo) (ts : String)
    (h1 : ci.state = s.previous_state) (h2 : ci.state.isSome = true)
    (h3 : some (invs.map InverterInfo.state) = s.previous_inverter_states) :
    s.monitor_step (.fetch ts (.ok ci invs)) =
      { state := s, output := [], continues := true, recoverySleep := 0 } := by
  obtain ⟨c, hc⟩ := Option.isSome_iff_exists.mp h2
  rw [hc] at h1
  simp [FCSPStateMonitor.monitor_step, get_current_state, hc, ← h1, ← h3]

/-- C2 witness: a concrete unchanged poll. -/
theorem unchanged_poll_no_report_no_update_witness :
    FCSPStateMonitor.monitor_step
        ⟨30, some "CS00", some [some "A1"], true⟩
        (.fetch "2026-01-01 00:00:00" (.ok ⟨some "CS00"⟩ [⟨some "A1"⟩])) =
      { state := ⟨30, some "CS00", some [some "A1"], true⟩,
        output := [], continues := true, recoverySleep := 0 } :=
  unchanged_poll_no_report_no_update
    ⟨30, some "CS00", some [some "A1"], true⟩
    ⟨some "CS00"⟩ [⟨some "A1"⟩] "2026-01-01 00:00:00" rfl rfl rfl

/-- C3: a poll whose fetch raises leaves the monitor object exactly as it
was (only the fetch error line is printed, the loop continues), so any
later step — in particular the next successful poll — starts from and
compares against the pre-failure `previous_*` values. -/
theorem fetch_failure_preserves_previous (s : FCSPStateMonitor)
    (out : FetchOutcome) (e : String) (ts : String)
    (h : out.errorText = some e) :
    s.monitor_step (.fetch ts out) =
      { state := s, output := [fetchErrorMsg e], continues := true,
        recoverySleep := 0 } ∧
    ∀ ev : CycleEvent,
      ((s.monitor_step (.fetch ts out)).state).monitor_step ev =
        s.monitor_step ev := by
  have hstep : s.monitor_step (.fetch ts out) =
      { state := s, output := [fetchErrorMsg e], continues := true,
        recoverySleep := 0 } := by
    cases out with
    | connectFail m =>
        simp only [FetchOutcome.errorText, Option.some.injEq] at h
        simp [FCSPStateMonitor.monitor_step, get_current_state, h]
    | chargerFail m =>
        simp only [FetchOutcome.errorText, Option.some.injEq] at h
        simp [FCSPStateMonitor.monitor_step, get_current_state, h]
    | inverterFail c m =>
        simp only [FetchOutcome.errorText, Option.some.injEq] at h
        simp [FCSPStateMonitor.monitor_step, get_current_state, h]
    | ok ci invs => simp [FetchOutcome.errorText] at h
  exact ⟨hstep, fun ev => by rw [hstep]⟩

/-- C3 witness: a concrete failing mid-loop fetch. -/
theorem fetch_failure_preserves_previous_witness :
    FCSPStateMonitor.monitor_step ⟨30, some "CS02", some [], true⟩
        (.fetch "2026-01-01 00:00:30" (.chargerFail "timeout")) =
      { state := ⟨30, some "CS02", some [], true⟩,
        output := [fetchErrorMsg "timeout"], continues := true,
        recoverySleep := 0 } ∧
    ∀ ev : CycleEvent,
      ((FCSPStateMonitor.monitor_step ⟨30, some "CS02", some [], true⟩
          (.fetch "2026-01-01 00:00:30" (.chargerFail "timeout"))).state).monitor_step ev =
        FCSPStateMonitor.monitor_step ⟨30, some "CS02", some [], true⟩ ev :=
  fetch_failure_preserves_previous ⟨30, some "CS02", some [], true⟩
    (.chargerFail "timeout") "timeout" "2026-01-01 00:00:30" rfl

/-- C4: once `previous_state` holds a value, no loop transition (shutdown
signal, keyboard interrupt, unexpected error, failed fetch, changed or
unchanged successful poll) ever makes it absent again — stated for a single
iteration and for any finite run of the loop. -/
theorem previous_state_never_absent_after_init :
    (∀ (s : FCSPStateMonitor) (ev : CycleEvent),
        s.previous_state.isSome = true →
        ((s.monitor_step ev).state).previous_state.isSome = true) ∧
    (∀ (s : FCSPStateMonitor) (events : List CycleEvent),
        s.previous_state.isSome = true →
        ((FCSPStateMonitor.monitor_loop s events).state).previous_state.isSome = true) :=
  ⟨monitor_step_preserves_prev, fun s events h => monitor_loop_preserves_prev events s h⟩

/-- C4 witness: concrete post-initialization states run through a signal
step and a short event list. -/
theorem previous_state_never_absent_after_init_witness :
    ((FCSPStateMonitor.monitor_step ⟨30, some "CS00", some [], true⟩
        (.signal 2)).state).previous_state.isSome = true ∧
    ((FCSPStateMonitor.monitor_loop ⟨30, some "CS00", some [], true⟩
        [.fetch "t" (.chargerFail "down"),
         .fetch "t" (.ok ⟨some "CS02"⟩ []),
         .unexpected "oops"]).state).previous_state.isSome = true :=
  ⟨previous_state_never_absent_after_init.1 ⟨30, some "CS00", some [], true⟩
      (.signal 2) rfl,
   previous_state_never_absent_after_init.2 ⟨30, some "CS00", some [], true⟩
      [.fetch "t" (.chargerFail "down"),
       .fetch "t" (.ok ⟨some "CS02"⟩ []),
       .unexpected "oops"] rfl⟩

/-- C5: the report built by `format_state_change` starts with the
timestamped header, always contains the device-transition line, contains
the inverter-transition line exactly when the inverter lists differ, and is
the newline-join of those lines. -/
theorem format_state_change_characterization (ts : String)
    (os ns : Option String) (oi ni : Option (List (Option String))) :
    (format_lines ts os ns oi ni).head? = some (stateChangeHeader ts) ∧
    deviceLine os ns ∈ format_lines ts os ns oi ni ∧
    (inverterLine oi ni ∈ format_lines ts os ns oi ni ↔ oi ≠ ni) ∧
    format_state_change ts os ns oi ni =
      String.intercalate "\n" (format_lines ts os ns oi ni) := by
  refine ⟨?_, ?_, ?_, rfl⟩ <;> by_cases h : oi = ni <;>
    simp [format_lines, h, inverterLine_ne_header, inverterLine_ne_deviceLine]

/-- C6: a state code missing from `DEVICE_STATES` resolves to the
synthesized fallback descriptor, whose name is exactly `Unknown (<code>)`
and whose icon is the placeholder; the lookup is a total function and so
never fails. -/
theorem unknown_state_code_fallback (c : String)
    (h : DEVICE_STATES.lookup c = none) :
    deviceStateLookup (some c) =
      { name := "Unknown (" ++ (c ++ ")"), description := none, icon := "❓" } := by
  simp [deviceStateLookup, h, pyShowStrOpt]

/-- C6 witness: a concrete unknown code. -/
theorem unknown_state_code_fallback_witness :
    deviceStateLookup (some "CS99") =
      { name := "Unknown (" ++ ("CS99" ++ ")"), description := none,
        icon := "❓" } :=
  unknown_state_code_fallback "CS99" rfl

/-- C7 (amended): the constructor performs no interval validation — it
stores any integer interval with no failure — and with interval `0`
(a non-positive value) the process constructs, polls, and ends with exit
status 0; no startup failure is reported. -/
theorem constructor_accepts_nonpositive_interval :
    (∀ i : Int, FCSPStateMonitor.init i =
      { poll_interval := i, previous_state := none,
        previous_inverter_states := none, running := false }) ∧
    (main_run 0 (.ok ⟨some "CS00"⟩ [])
        [.fetch "2026-01-01 00:00:00" (.ok ⟨some "CS00"⟩ [])]).exitCode = 0 ∧
    (main_run 0 (.ok ⟨some "CS00"⟩ [])
        [.fetch "2026-01-01 00:00:00" (.ok ⟨some "CS00"⟩ [])]).polls = 1 :=
  ⟨fun _ => rfl, rfl, rfl⟩

/-- C7 counterexample: with interval `0` (not a positive integer) the
monitor is constructed without any failure, a poll cycle runs, and the exit
status is 0 — against the claim, there is no startup construction failure
and no non-zero exit before polling. -/
theorem interval_zero_constructs_and_polls :
    FCSPStateMonitor.init 0 =
      { poll_interval := 0, previous_state := none,
        previous_inverter_states := none, running := false } ∧
    (main_run 0 (.ok ⟨some "CS01"⟩ [])
        [.fetch "2026-02-02 12:00:00" (.ok ⟨some "CS01"⟩ [])]).exitCode = 0 ∧
    (main_run 0 (.ok ⟨some "CS01"⟩ [])
        [.fetch "2026-02-02 12:00:00" (.ok ⟨some "CS01"⟩ [])]).polls = 1 :=
  ⟨rfl, rfl, rfl⟩

/-- C8 (amended): the recovery delay after an unexpected loop error is the
fixed `errorRetryDelay = 5` seconds — strictly shorter than the default
poll interval of 30 seconds, though not shorter than every positive
interval — and after it the loop continues with the monitor object
unchanged rather than terminating. -/
theorem unexpected_error_fixed_recovery_delay (s : FCSPStateMonitor)
    (e : String) :
    s.monitor_step (.unexpected e) =
      { state := s, output := [unexpectedErrorMsg e], continues := true,
        recoverySleep := errorRetryDelay } ∧
    errorRetryDelay = 5 ∧ errorRetryDelay < defaultPollInterval :=
  ⟨rfl, rfl, by decide⟩

/-- C8 counterexample: a monitor with the valid poll interval 3 (> 0):
the recovery delay actually performed after an unexpected error is
`errorRetryDelay = 5`, which is not strictly shorter than the poll
interval. -/
theorem recovery_delay_not_shorter_than_interval_three :
    (FCSPStateMonitor.poll_interval ⟨3, some "CS00", some [], true⟩ > 0) ∧
    (FCSPStateMonitor.monitor_step ⟨3, some "CS00", some [], true⟩
        (.unexpected "boom")).recoverySleep = errorRetryDelay ∧
    ¬(errorRetryDelay <
        FCSPStateMonitor.poll_interval ⟨3, some "CS00", some [], true⟩) := by
  refine ⟨by decide, rfl, by decide⟩

/-- C9: every exception inside `get_current_state` — raised while acquiring
the connection, requesting charger info, or requesting inverter info — is
converted into the `(None, None)` failure marker plus one printed error
line carrying the exception's text, and the loop step on such an outcome
continues rather than faulting. -/
theorem fetch_errors_caught_and_marked (out : FetchOutcome) (e : String)
    (h : out.errorText = some e) :
    get_current_state out = ((none, none), [fetchErrorMsg e]) ∧
    ∀ (s : FCSPStateMonitor) (ts : String),
      (s.monitor_step (.fetch ts out)).continues = true := by
  have hg : get_current_state out = ((none, none), [fetchErrorMsg e]) := by
    cases out with
    | connectFail m =>
        simp only [FetchOutcome.errorText, Option.some.injEq] at h
        simp [get_current_state, h]
    | chargerFail m =>
        simp only [FetchOutcome.errorText, Option.some.injEq] at h
        simp [get_current_state, h]
    | inverterFail c m =>
        simp only [FetchOutcome.errorText, Option.some.injEq] at h
        simp [get_current_state, h]
    | ok ci invs => simp [FetchOutcome.errorText] at h
  refine ⟨hg, fun s ts => ?_⟩
  simp [FCSPStateMonitor.monitor_step, hg]

/-- C9 witness: a concrete connection failure. -/
theorem fetch_errors_caught_and_marked_witness :
    get_current_state (.connectFail "connection refused") =
      ((none, none), [fetchErrorMsg "connection refused"]) ∧
    ∀ (s : FCSPStateMonitor) (ts : String),
      (s.monitor_step (.fetch ts (.connectFail "connection refused"))).continues =
        true :=
  fetch_errors_caught_and_marked (.connectFail "connection refused")
    "connection refused" rfl

/-- C10: a fetch that raises nowhere but whose charger record lacks the
`state` field yields `(None, inverter list)` with no printed line, and the
loop skips that cycle exactly as it skips a failed fetch: monitor object
unchanged, no change report, no error line. -/
theorem missing_state_field_skipped_silently (s : FCSPStateMonitor)
    (ci : ChargerInfo) (invs : List InverterInfo) (ts : String)
    (h : ci.state = none) :
    get_current_state (.ok ci invs) =
      ((none, some (invs.map InverterInfo.state)), []) ∧
    s.monitor_step (.fetch ts (.ok ci invs)) =
      { state := s, output := [], continues := true, recoverySleep := 0 } := by
  constructor
  · simp [get_current_state, h]
  · simp [FCSPStateMonitor.monitor_step, get_current_state, h]

/-- C10 witness: a concrete charger record without a `state` field. -/
theorem missing_state_field_skipped_silently_witness :
    get_current_state (.ok ⟨none⟩ [⟨some "A1"⟩]) =
      ((none, some ([⟨some "A1"⟩].map InverterInfo.state)), []) ∧
    FCSPStateMonitor.monitor_step ⟨30, some "CS00", some [some "A1"], true⟩
        (.fetch "2026-01-01 00:01:00" (.ok ⟨none⟩ [⟨some "A1"⟩])) =
      { state := ⟨30, some "CS00", some [some "A1"], true⟩,
        output := [], continues := true, recoverySleep := 0 } :=
  missing_state_field_skipped_silently ⟨30, some "CS00", some [some "A1"], true⟩
    ⟨none⟩ [⟨some "A1"⟩] "2026-01-01 00:01:00" rfl
